import Mathlib

/-!
Verification development for the `agb` game-boy emulator core.

Each definition below is a shallow embedding of a function of the Rust
source tree (file and function named in its doc comment).  Machine
integers are modelled as `Nat` (with explicit masks / moduli where the
source relies on wrapping), fallible code returns `Except`, and a Rust
panic (out-of-bounds slice index) is modelled as `Option.none`.
-/

namespace AGB

/-! ### Cartridge header parsing — src/gameboy/cartridge/mod.rs -/

/-- Cartridge controller kind, from `enum MBCType` in cartridge/mod.rs. -/
inductive MBCType where
  | NONE | MBC1 | MBC2 | MMM01 | MBC3 | MBC4 | MBC5 | MBC6 | MBC7
  | CAMERA | TAMA5 | HUC3 | HUC1
deriving DecidableEq

/-- Parsed header, from `struct CartInfo` (the constant-empty `title` field is omitted). -/
structure CartInfo where
  sgb : Bool
  cgb : Bool
  mbc_type : MBCType
  battery : Bool
  rtc : Bool
  rom_size : Nat
  ram_size : Nat
deriving DecidableEq

/-- `CartInfo::has_battery` (cartridge/mod.rs). -/
def has_battery (cart_type : Nat) : Bool :=
  cart_type = 0x03 ∨ cart_type = 0x06 ∨ cart_type = 0x09 ∨ cart_type = 0x0D ∨
  (0x0F ≤ cart_type ∧ cart_type ≤ 0x10) ∨ cart_type = 0x13 ∨ cart_type = 0x17 ∨
  cart_type = 0x1B ∨ cart_type = 0x1E ∨ cart_type = 0x22 ∨ cart_type = 0xFF

/-- `CartInfo::has_rtc` (cartridge/mod.rs). -/
def has_rtc (cart_type : Nat) : Bool :=
  cart_type = 0x0F ∨ cart_type = 0x10

/-- `CartInfo::get_type` (cartridge/mod.rs); the match arms in source order. -/
def get_type (cart_type : Nat) : Except String MBCType :=
  if cart_type = 0x00 then .ok .NONE
  else if 0x01 ≤ cart_type ∧ cart_type ≤ 0x03 then .ok .MBC1
  else if 0x05 ≤ cart_type ∧ cart_type ≤ 0x06 then .ok .MBC2
  else if 0x08 ≤ cart_type ∧ cart_type ≤ 0x09 then .ok .NONE
  else if 0x0B ≤ cart_type ∧ cart_type ≤ 0x0D then .ok .MMM01
  else if 0x0F ≤ cart_type ∧ cart_type ≤ 0x13 then .ok .MBC3
  else if 0x15 ≤ cart_type ∧ cart_type ≤ 0x17 then .ok .MBC4
  else if 0x19 ≤ cart_type ∧ cart_type ≤ 0x1E then .ok .MBC5
  else if cart_type = 0x20 then .ok .MBC6
  else if cart_type = 0x22 then .ok .MBC7
  else if cart_type = 0xFC then .ok .CAMERA
  else if cart_type = 0xFD then .ok .TAMA5
  else if cart_type = 0xFE then .ok .HUC3
  else if cart_type = 0xFF then .ok .HUC1
  else .error "Invalid value Cartridge Type in Cartridge Header at index 0x0147!"

/-- `CartInfo::get_rom_size` (cartridge/mod.rs). -/
def get_rom_size (rom_size : Nat) : Except String Nat :=
  if rom_size ≤ 0x07 then .ok (0x8000 <<< rom_size)
  else if rom_size = 0x52 then .ok (0x4000 * 72)
  else if rom_size = 0x53 then .ok (0x4000 * 80)
  else if rom_size = 0x54 then .ok (0x4000 * 96)
  else .error "Invalid value Rom Size in Cartridge Header at index 0x0148!"

/-- `CartInfo::get_ram_size` (cartridge/mod.rs). -/
def get_ram_size (ram_size : Nat) : Except String Nat :=
  if ram_size = 0x00 then .ok 0
  else if ram_size = 0x01 then .ok (2 * 1024)
  else if ram_size = 0x02 then .ok (8 * 1024)
  else if ram_size = 0x03 then .ok (32 * 1024)
  else if ram_size = 0x04 then .ok (128 * 1024)
  else if ram_size = 0x05 then .ok (64 * 1024)
  else .error "Invalid value Ram Size in Cartridge Header at index 0x0149!"

/-- `CartInfo::new` (cartridge/mod.rs lines 72-93), with the exact
evaluation order of the source: `rom[0x147]`, `rom[0x148]`, `rom[0x149]` are indexed (each a
potential out-of-bounds panic, modelled by `none`) BEFORE the
`rom.len() < 0x150` check is reached. -/
def CartInfo.new (rom : List Nat) : Option (Except String CartInfo) :=
  match rom.get? 0x147 with
  | none => none
  | some b147 =>
    match get_type b147 with
    | .error e => some (.error e)
    | .ok mbc =>
      match rom.get? 0x148 with
      | none => none
      | some b148 =>
        match get_rom_size b148 with
        | .error e => some (.error e)
        | .ok romSize =>
          match rom.get? 0x149 with
          | none => none
          | some b149 =>
            match get_ram_size b149 with
            | .error e => some (.error e)
            | .ok ramSize =>
              if rom.length < 0x150 then
                some (.error "Rom is too small to contain a rom header (rom is smaller than 0x150 bytes)")
              else
                match rom.get? 0x146, rom.get? 0x143 with
                | some b146, some b143 =>
                  some (.ok { sgb := b146 = 0x03
                            , cgb := b143 &&& 0x80 = 0x80
                            , battery := has_battery b147
                            , rtc := has_rtc b147
                            , mbc_type := mbc
                            , rom_size := romSize
                            , ram_size := ramSize })
                | _, _ => none

/-! ### MBC1 — src/gameboy/cartridge/mbc1.rs -/

/-- `enum ModeSelect` in mbc1.rs. -/
inductive ModeSelect where
  | Rom | Ram
deriving DecidableEq

/-- `struct MBC1` (mbc1.rs). -/
structure MBC1 where
  ram_bank : Nat
  rom_bank : Nat
  mode : ModeSelect
  ram_enable : Bool
deriving DecidableEq

/-- `MBC1::new` (mbc1.rs). -/
def MBC1.new : MBC1 :=
  { ram_bank := 0, rom_bank := 1, mode := .Rom, ram_enable := false }

/-- `MBC1::read_byte_rom` (mbc1.rs lines 28-46).  The ROM image is modelled as
an indexing function guarded by `rom_size`, exactly as the source guards its
slice access; `none` models the panic of the source for an address above 0x7FFF. -/
def MBC1.read_byte_rom (s : MBC1) (rom : Nat → Nat) (rom_size address : Nat) : Option Nat :=
  if address ≤ 0x3FFF then
    some (if address < rom_size then rom address else 0xFF)
  else if address ≤ 0x7FFF then
    let rom_bank := if s.mode = .Rom then s.rom_bank ||| (s.ram_bank <<< 5) else s.rom_bank
    let addr := (address - 0x4000) + 0x4000 * rom_bank
    some (if addr < rom_size then rom addr else 0xFF)
  else none

/-- `MBC1::write_byte_rom` (mbc1.rs lines 63-78). -/
def MBC1.write_byte_rom (s : MBC1) (address value : Nat) : MBC1 :=
  if address ≤ 0x1FFF then { s with ram_enable := value &&& 0x0A = 0x0A }
  else if address ≤ 0x3FFF then { s with rom_bank := value &&& 0x1F }
  else if address ≤ 0x5FFF then { s with ram_bank := value &&& 3 }
  else if address ≤ 0x7FFF then
    { s with mode := if value &&& 1 = 0 then ModeSelect.Rom else ModeSelect.Ram }
  else s

/-! ### MBC3 real-time clock — src/gameboy/cartridge/mbc3.rs -/

/-- `struct Duration` (mbc3.rs). -/
structure Duration where
  seconds : Nat
  minutes : Nat
  hours : Nat
  days : Nat
deriving DecidableEq

/-- `Duration::new` (mbc3.rs). -/
def Duration.new : Duration := { seconds := 0, minutes := 0, hours := 0, days := 0 }

/-- `Duration::from` (mbc3.rs lines 29-36). -/
def Duration.from_seconds (seconds : Nat) : Duration :=
  { seconds := seconds % 60
  , minutes := (seconds / 60) % 60
  , hours := (seconds / 3600) % 24
  , days := (seconds / 86400) % 512 }

/-- `Duration::get_seconds` (mbc3.rs). -/
def Duration.get_seconds (d : Duration) : Nat :=
  d.seconds + d.minutes * 60 + d.hours * 3600 + d.days * 86400

/-- `Duration::add_seconds` (mbc3.rs). -/
def Duration.add_seconds (d : Duration) (seconds : Nat) : Duration :=
  Duration.from_seconds (d.get_seconds + seconds)

/-- `struct RTC` (mbc3.rs). -/
structure RTC where
  last : Int
  duration : Duration
  latched : Option Duration
  halt : Bool
  day_carry : Bool
deriving DecidableEq

/-- `RTC::update` (mbc3.rs lines 70-84).  The wall clock
(`time::now_utc().to_timespec().sec`) is passed in as `now`.  Note the source
computes `delta = self.last - time` (anchor minus current time). -/
def RTC.update (r : RTC) (now : Int) : RTC :=
  let delta := r.last - now
  if delta > 0 then
    let r1 : RTC := { r with last := now }
    if ¬r1.halt then
      let new_duration := r1.duration.add_seconds delta.toNat
      let r2 : RTC :=
        if r1.duration.days > new_duration.days then { r1 with day_carry := true } else r1
      { r2 with duration := new_duration }
    else r1
  else r

/-! ### MBC3 banking — src/gameboy/cartridge/mbc3.rs -/

/-- `struct MBC3` (mbc3.rs). -/
structure MBC3 where
  rom_bank : Nat
  ram_bank : Nat
  latch_written : Option Nat
  rtc : Option RTC
  ram_timer_enable : Bool
deriving DecidableEq

/-- `MBC3::new` (mbc3.rs); `now` models the wall clock read by `RTC::new`. -/
def MBC3.new (rtc_enabled : Bool) (now : Int) : MBC3 :=
  { rom_bank := 1
  , ram_bank := 0
  , latch_written := none
  , rtc := if rtc_enabled then
      some { last := now, duration := Duration.new, latched := none
           , halt := false, day_carry := false }
    else none
  , ram_timer_enable := false }

/-- `MBC3::read_byte_rom` (mbc3.rs lines 213-232).  Mirrors the bound
check of the source `bank_offset + offset >= rom_size` (which uses the raw `offset`, not
`offset - 0x4000`). -/
def MBC3.read_byte_rom (s : MBC3) (rom : Nat → Nat) (rom_size offset : Nat) : Nat :=
  if offset < 0x4000 then
    if offset < rom_size then rom offset else 0xFF
  else
    let bank_offset := s.rom_bank * 0x4000
    if bank_offset + offset ≥ rom_size then 0xFF
    else rom (bank_offset + (offset - 0x4000))

/-- `MBC3::write_byte_rom` (mbc3.rs lines 272-299); `now` models the wall
clock used when a latch write updates the RTC. -/
def MBC3.write_byte_rom (s : MBC3) (address value : Nat) (now : Int) : MBC3 :=
  if address ≤ 0x1FFF then { s with ram_timer_enable := value = 0x0A }
  else if address ≤ 0x3FFF then { s with rom_bank := value &&& 0x7F }
  else if address ≤ 0x5FFF then
    { s with ram_bank := if value ≤ 3 ∨ (8 ≤ value ∧ value ≤ 0xC) then value else 0 }
  else if address ≤ 0x7FFF then
    let s1 :=
      match s.rtc with
      | some rtc =>
        if s.latch_written = some 0 ∧ value = 1 then
          let rtc1 := rtc.update now
          { s with rtc := some { rtc1 with latched := some rtc1.duration } }
        else if value = 0 then { s with rtc := some { rtc with latched := none } }
        else s
      | none => s
    { s1 with latch_written := some value }
  else s

/-! ### Timer — src/gameboy/timer.rs -/

/-- `enum Mode` (gameboy/mode.rs): hardware model variant. -/
inductive Mode where
  | DMG | CGB
deriving DecidableEq

/-- `const FREQ: [u16; 4] = [512, 8, 32, 128]` (timer.rs): the DIV bit mask
selected by the low two bits of TAC. -/
def FREQ (i : Nat) : Nat :=
  if i = 0 then 512 else if i = 1 then 8 else if i = 2 then 32 else 128

/-- `struct Timer` (timer.rs).  `div` and `tima` are `u16` in the source. -/
structure Timer where
  model : Mode
  div : Nat
  tima : Nat
  tma : Nat
  tac : Nat
  tima_overflow_delay : Option Int
deriving DecidableEq

/-- `Timer::new` (timer.rs). -/
def Timer.new (model : Mode) : Timer :=
  { model := model, div := 0, tima := 0, tma := 0, tac := 0, tima_overflow_delay := none }

/-- `Timer::emulate_hardware` (timer.rs lines 109-134).  Returns the new state
and whether a Timer interrupt was requested on this tick. -/
def Timer.emulate_hardware (t : Timer) : Timer × Bool :=
  let old_div := t.div
  let div := (t.div + 1) % 65536
  let freq := FREQ (t.tac &&& 3)
  let t1 : Timer := { t with div := div }
  match t.tima_overflow_delay with
  | some delay =>
    if delay > 0 then ({ t1 with tima_overflow_delay := some (delay - 1) }, false)
    else ({ t1 with tima := t.tma, tima_overflow_delay := none }, true)
  | none =>
    if t.tac &&& 4 = 4 ∧ old_div &&& freq = freq ∧ div &&& freq = 0 then
      let tima := t.tima + 1
      if tima > 0xFF then ({ t1 with tima := 0, tima_overflow_delay := some 4 }, false)
      else ({ t1 with tima := tima }, false)
    else (t1, false)

/-- `Timer::write_io` for the `Div` register (timer.rs lines 152-165): writing
any value resets DIV to 0 and may increment TIMA. -/
def Timer.write_div (t : Timer) : Timer :=
  let old_div := t.div
  let t1 : Timer := { t with div := 0 }
  let freq := FREQ (t.tac &&& 3)
  if t.tac &&& 4 = 4 ∧ old_div &&& freq = freq then
    let tima := t.tima + 1
    if tima > 0xFF then { t1 with tima := 0, tima_overflow_delay := some 4 }
    else { t1 with tima := tima }
  else t1

/-- `Timer::write_io` for the `Tima` register (timer.rs line 166). -/
def Timer.write_tima (t : Timer) (value : Nat) : Timer :=
  { t with tima := value }

/-- `Timer::write_io` for the `Tac` register (timer.rs lines 168-189): on the
DMG model, a falling edge of `enable AND div[selected]` caused by the write
increments TIMA. -/
def Timer.write_tac (t : Timer) (value : Nat) : Timer :=
  match t.model with
  | .DMG =>
    let old : Bool := (t.tac &&& 4 ≠ 0) ∧ (t.div &&& FREQ (t.tac &&& 3) ≠ 0)
    let new : Bool := (value &&& 4 ≠ 0) ∧ (t.div &&& FREQ (value &&& 3) ≠ 0)
    if old ∧ ¬new then
      let tima := t.tima + 1
      if tima > 0xFF then { t with tima := 0, tima_overflow_delay := some 4, tac := value }
      else { t with tima := tima, tac := value }
    else { t with tac := value }
  | .CGB => { t with tac := value }

/-- Selected DIV bit for a TAC value, as the specification states it:
bit 9, 3, 5 or 7 for clock-select 0, 1, 2, 3. -/
def selectedDivBit (tac : Nat) : Nat :=
  if tac &&& 3 = 0 then 9 else if tac &&& 3 = 1 then 3 else if tac &&& 3 = 2 then 5 else 7

/-- The timer input signal of the specification: TAC enable bit AND the
selected DIV bit. -/
def timerInput (tac div : Nat) : Bool :=
  tac.testBit 2 && div.testBit (selectedDivBit tac)

/-! ### PPU scanline state machine — src/gameboy/ppu/dmg_ppu.rs

The embedding carries the timing-relevant state of `struct DmgPpu` (mode, line,
clock, the two framebuffer indices and the interrupt-request latches) together
with the four bytes of the shared `io` array that `emulate_hardware` touches:
`io[0x40]` (LCDC, read), `io[0x41]` (STAT, read and written back),
`io[0x45]` (LYC, read) and `io[0x44]` (LY, written).  The pixel contents of the
two framebuffers are not modelled: `draw_scanline` writes only into
`self.buffers` and reads nothing back from them, so they have no effect on the
state machine, on the buffer indices or on the io registers. -/

/-- `enum PpuMode` (ppu/mod.rs). -/
inductive PpuMode where
  | HBLANK | VBLANK | SEARCH_OAM | TRANSFER_TO_LCD
deriving DecidableEq

/-- Mode bits written into the low two bits of STAT (dmg_ppu.rs lines 426-431). -/
def PpuMode.bits : PpuMode → Nat
  | .HBLANK => 0
  | .VBLANK => 1
  | .SEARCH_OAM => 2
  | .TRANSFER_TO_LCD => 3

/-- The io-register bytes read or written by `DmgPpu::emulate_hardware`. -/
structure PpuIo where
  lcdc : Nat
  stat : Nat
  lyc : Nat
  ly : Nat
deriving DecidableEq

/-- Timing-relevant state of `struct DmgPpu` (dmg_ppu.rs lines 19-57). -/
structure DmgPpu where
  mode : PpuMode
  line : Nat
  clock : Nat
  front_buffer_index : Nat
  back_buffer_index : Nat
  vblank_requested : Bool
  lcdstat_requested : Bool
deriving DecidableEq

/-- `DmgPpu::new` (dmg_ppu.rs lines 60-74). -/
def DmgPpu.new : DmgPpu :=
  { mode := .HBLANK, line := 0, clock := 0
  , front_buffer_index := 1, back_buffer_index := 0
  , vblank_requested := false, lcdstat_requested := false }

/-- `DmgPpu::emulate_hardware` (dmg_ppu.rs lines 326-438), called once per
machine cycle (it advances `clock` by 4 T-cycles).  Returns the new PPU state
and the written-back io bytes. -/
def DmgPpu.emulate_hardware (p : DmgPpu) (r : PpuIo) : DmgPpu × PpuIo :=
  if r.lcdc &&& 128 = 0 then (p, r)
  else
    let stat := r.stat &&& 0x78
    let clock := p.clock + 4
    let p1 : DmgPpu :=
      match p.mode with
      | .HBLANK =>
        if clock > 228 then
          let line := p.line + 1
          if line < 144 then
            { p with mode := .SEARCH_OAM, line := line, clock := 0
                   , lcdstat_requested := if stat &&& 32 = 32 then true else p.lcdstat_requested }
          else
            { p with mode := .VBLANK, line := line, clock := 0
                   , vblank_requested := true
                   , lcdstat_requested := if stat &&& 16 = 16 then true else p.lcdstat_requested
                   , front_buffer_index := p.back_buffer_index
                   , back_buffer_index := p.front_buffer_index }
        else { p with clock := clock }
      | .VBLANK =>
        if clock > 456 then
          let line := p.line + 1
          if line ≥ 153 then
            { p with line := 0, clock := 0, mode := .SEARCH_OAM
                   , lcdstat_requested := if stat &&& 32 = 32 then true else p.lcdstat_requested }
          else { p with line := line, clock := 0 }
        else { p with clock := clock }
      | .SEARCH_OAM =>
        if clock > 76 then { p with clock := 0, mode := .TRANSFER_TO_LCD }
        else { p with clock := clock }
      | .TRANSFER_TO_LCD =>
        if clock > 152 then
          { p with mode := .HBLANK, clock := 0
                 , lcdstat_requested := if stat &&& 8 = 8 then true else p.lcdstat_requested }
        else { p with clock := clock }
    let p2 : DmgPpu :=
      if r.lyc = p1.line then
        { p1 with lcdstat_requested := if stat &&& 64 = 64 then true else p1.lcdstat_requested }
      else p1
    let stat1 := if r.lyc = p1.line then stat ||| 4 else stat
    (p2, { r with stat := stat1 ||| p1.mode.bits ||| 0x80, ly := p1.line })

/-- One machine-cycle step of the (ppu, io) pair. -/
def ppuStep (s : DmgPpu × PpuIo) : DmgPpu × PpuIo :=
  DmgPpu.emulate_hardware s.1 s.2

/-- Post-bootrom PPU state: `DmgPpu::new` with the io bytes set by
`init_io_registers` (dmg_ppu.rs lines 440-443): LCDC = 0x91, STAT = 0x85. -/
def ppuReset : DmgPpu × PpuIo :=
  (DmgPpu.new, { lcdc := 0x91, stat := 0x85, lyc := 0, ly := 0 })

/-- Timing core of the PPU state machine: the fields of `DmgPpu` that drive
the mode/line/clock transitions and the framebuffer swap.  The interrupt
latches and the io write-backs do not feed back into these fields (see
`core_sim` below), so frame timing can be computed on this projection. -/
structure PpuCore where
  mode : PpuMode
  line : Nat
  clock : Nat
  front_buffer_index : Nat
  back_buffer_index : Nat
deriving DecidableEq

/-- Projection of a `DmgPpu` onto its timing core. -/
def DmgPpu.core (p : DmgPpu) : PpuCore :=
  { mode := p.mode, line := p.line, clock := p.clock
  , front_buffer_index := p.front_buffer_index, back_buffer_index := p.back_buffer_index }

/-- The mode/line/clock/buffer-swap transitions of `DmgPpu::emulate_hardware`
(dmg_ppu.rs lines 326-438) on the timing core; `core_sim` proves that one
call of the full `DmgPpu.emulate_hardware` acts as `coreStep` on the core. -/
def coreStep (p : PpuCore) : PpuCore :=
  let clock := p.clock + 4
  match p.mode with
  | .HBLANK =>
    if clock > 228 then
      let line := p.line + 1
      if line < 144 then { p with mode := .SEARCH_OAM, line := line, clock := 0 }
      else
        { p with mode := .VBLANK, line := line, clock := 0
               , front_buffer_index := p.back_buffer_index
               , back_buffer_index := p.front_buffer_index }
    else { p with clock := clock }
  | .VBLANK =>
    if clock > 456 then
      let line := p.line + 1
      if line ≥ 153 then { p with line := 0, clock := 0, mode := .SEARCH_OAM }
      else { p with line := line, clock := 0 }
    else { p with clock := clock }
  | .SEARCH_OAM =>
    if clock > 76 then { p with clock := 0, mode := .TRANSFER_TO_LCD }
    else { p with clock := clock }
  | .TRANSFER_TO_LCD =>
    if clock > 152 then { p with mode := .HBLANK, clock := 0 }
    else { p with clock := clock }

/-- Run the timing core for `n` machine cycles watching the front-buffer
index (which changes only at the HBlank-to-VBlank framebuffer swap).
Returns `true` with the final state if no swap occurred, or `false` with the
state just after the first swap. -/
def runNoSwapCore : Nat → PpuCore → Bool × PpuCore
  | 0, c => (true, c)
  | n + 1, c =>
    let t := coreStep c
    if t.front_buffer_index = c.front_buffer_index then runNoSwapCore n t
    else (false, t)

/-- Core state at PPU reset. -/
def cA0 : PpuCore := DmgPpu.new.core

/-- Core state 1000 machine cycles after reset. -/
def cA1 : PpuCore := { mode := .SEARCH_OAM, line := 9, clock := 24, front_buffer_index := 1, back_buffer_index := 0 }

/-- Core state 2000 machine cycles after reset. -/
def cA2 : PpuCore := { mode := .HBLANK, line := 17, clock := 44, front_buffer_index := 1, back_buffer_index := 0 }

/-- Core state 3000 machine cycles after reset. -/
def cA3 : PpuCore := { mode := .SEARCH_OAM, line := 26, clock := 68, front_buffer_index := 1, back_buffer_index := 0 }

/-- Core state 4000 machine cycles after reset. -/
def cA4 : PpuCore := { mode := .HBLANK, line := 34, clock := 88, front_buffer_index := 1, back_buffer_index := 0 }

/-- Core state 5000 machine cycles after reset. -/
def cA5 : PpuCore := { mode := .TRANSFER_TO_LCD, line := 43, clock := 32, front_buffer_index := 1, back_buffer_index := 0 }

/-- Core state 6000 machine cycles after reset. -/
def cA6 : PpuCore := { mode := .HBLANK, line := 51, clock := 132, front_buffer_index := 1, back_buffer_index := 0 }

/-- Core state 7000 machine cycles after reset. -/
def cA7 : PpuCore := { mode := .TRANSFER_TO_LCD, line := 60, clock := 76, front_buffer_index := 1, back_buffer_index := 0 }

/-- Core state 8000 machine cycles after reset. -/
def cA8 : PpuCore := { mode := .HBLANK, line := 68, clock := 176, front_buffer_index := 1, back_buffer_index := 0 }

/-- Core state 9000 machine cycles after reset. -/
def cA9 : PpuCore := { mode := .TRANSFER_TO_LCD, line := 77, clock := 120, front_buffer_index := 1, back_buffer_index := 0 }

/-- Core state 10000 machine cycles after reset. -/
def cA10 : PpuCore := { mode := .HBLANK, line := 85, clock := 220, front_buffer_index := 1, back_buffer_index := 0 }

/-- Core state 11000 machine cycles after reset. -/
def cA11 : PpuCore := { mode := .HBLANK, line := 94, clock := 8, front_buffer_index := 1, back_buffer_index := 0 }

/-- Core state 12000 machine cycles after reset. -/
def cA12 : PpuCore := { mode := .SEARCH_OAM, line := 103, clock := 32, front_buffer_index := 1, back_buffer_index := 0 }

/-- Core state 13000 machine cycles after reset. -/
def cA13 : PpuCore := { mode := .HBLANK, line := 111, clock := 52, front_buffer_index := 1, back_buffer_index := 0 }

/-- Core state 14000 machine cycles after reset. -/
def cA14 : PpuCore := { mode := .SEARCH_OAM, line := 120, clock := 76, front_buffer_index := 1, back_buffer_index := 0 }

/-- Core state 15000 machine cycles after reset. -/
def cA15 : PpuCore := { mode := .HBLANK, line := 128, clock := 96, front_buffer_index := 1, back_buffer_index := 0 }

/-- Core state 16000 machine cycles after reset. -/
def cA16 : PpuCore := { mode := .TRANSFER_TO_LCD, line := 137, clock := 40, front_buffer_index := 1, back_buffer_index := 0 }

/-- Core state 16788 machine cycles after reset (one call before the first
framebuffer swap). -/
def cA17 : PpuCore := { mode := .HBLANK, line := 143, clock := 228, front_buffer_index := 1, back_buffer_index := 0 }

/-- Core state just after the first framebuffer swap (machine cycle 16789). -/
def cB0 : PpuCore := { mode := .VBLANK, line := 144, clock := 0, front_buffer_index := 0, back_buffer_index := 1 }

/-- Core state 1000 machine cycles after the first swap. -/
def cB1 : PpuCore := { mode := .VBLANK, line := 152, clock := 320, front_buffer_index := 0, back_buffer_index := 1 }

/-- Core state 2000 machine cycles after the first swap. -/
def cB2 : PpuCore := { mode := .TRANSFER_TO_LCD, line := 8, clock := 36, front_buffer_index := 0, back_buffer_index := 1 }

/-- Core state 3000 machine cycles after the first swap. -/
def cB3 : PpuCore := { mode := .HBLANK, line := 16, clock := 136, front_buffer_index := 0, back_buffer_index := 1 }

/-- Core state 4000 machine cycles after the first swap. -/
def cB4 : PpuCore := { mode := .TRANSFER_TO_LCD, line := 25, clock := 80, front_buffer_index := 0, back_buffer_index := 1 }

/-- Core state 5000 machine cycles after the first swap. -/
def cB5 : PpuCore := { mode := .HBLANK, line := 33, clock := 180, front_buffer_index := 0, back_buffer_index := 1 }

/-- Core state 6000 machine cycles after the first swap. -/
def cB6 : PpuCore := { mode := .TRANSFER_TO_LCD, line := 42, clock := 124, front_buffer_index := 0, back_buffer_index := 1 }

/-- Core state 7000 machine cycles after the first swap. -/
def cB7 : PpuCore := { mode := .HBLANK, line := 50, clock := 224, front_buffer_index := 0, back_buffer_index := 1 }

/-- Core state 8000 machine cycles after the first swap. -/
def cB8 : PpuCore := { mode := .HBLANK, line := 59, clock := 12, front_buffer_index := 0, back_buffer_index := 1 }

/-- Core state 9000 machine cycles after the first swap. -/
def cB9 : PpuCore := { mode := .SEARCH_OAM, line := 68, clock := 36, front_buffer_index := 0, back_buffer_index := 1 }

/-- Core state 10000 machine cycles after the first swap. -/
def cB10 : PpuCore := { mode := .HBLANK, line := 76, clock := 56, front_buffer_index := 0, back_buffer_index := 1 }

/-- Core state 11000 machine cycles after the first swap. -/
def cB11 : PpuCore := { mode := .TRANSFER_TO_LCD, line := 85, clock := 0, front_buffer_index := 0, back_buffer_index := 1 }

/-- Core state 12000 machine cycles after the first swap. -/
def cB12 : PpuCore := { mode := .HBLANK, line := 93, clock := 100, front_buffer_index := 0, back_buffer_index := 1 }

/-- Core state 13000 machine cycles after the first swap. -/
def cB13 : PpuCore := { mode := .TRANSFER_TO_LCD, line := 102, clock := 44, front_buffer_index := 0, back_buffer_index := 1 }

/-- Core state 14000 machine cycles after the first swap. -/
def cB14 : PpuCore := { mode := .HBLANK, line := 110, clock := 144, front_buffer_index := 0, back_buffer_index := 1 }

/-- Core state 15000 machine cycles after the first swap. -/
def cB15 : PpuCore := { mode := .TRANSFER_TO_LCD, line := 119, clock := 88, front_buffer_index := 0, back_buffer_index := 1 }

/-- Core state 16000 machine cycles after the first swap. -/
def cB16 : PpuCore := { mode := .HBLANK, line := 127, clock := 188, front_buffer_index := 0, back_buffer_index := 1 }

/-- Core state 17000 machine cycles after the first swap. -/
def cB17 : PpuCore := { mode := .TRANSFER_TO_LCD, line := 136, clock := 132, front_buffer_index := 0, back_buffer_index := 1 }

/-- Core state 17882 machine cycles after the first swap (one call before
the second swap). -/
def cB18 : PpuCore := { mode := .HBLANK, line := 143, clock := 228, front_buffer_index := 0, back_buffer_index := 1 }

/-- Core state just after the second framebuffer swap (17883 machine cycles
after the first). -/
def cC0 : PpuCore := { mode := .VBLANK, line := 144, clock := 0, front_buffer_index := 1, back_buffer_index := 0 }

/-! ### CPU registers — src/gameboy/cpu/registers.rs -/

/-- `enum RegisterPair` (registers.rs). -/
inductive RegisterPair where
  | AF | BC | DE | HL | SP
deriving DecidableEq

/-- `struct Registers` (registers.rs): eight 8-bit registers plus SP and PC. -/
structure Registers where
  a : Nat
  f : Nat
  b : Nat
  c : Nat
  d : Nat
  e : Nat
  h : Nat
  l : Nat
  sp : Nat
  pc : Nat
deriving DecidableEq

/-- `Registers::get_register_pair` (registers.rs lines 88-96). -/
def Registers.get_register_pair (r : Registers) : RegisterPair → Nat
  | .AF => (r.a <<< 8) ||| r.f
  | .BC => (r.b <<< 8) ||| r.c
  | .DE => (r.d <<< 8) ||| r.e
  | .HL => (r.h <<< 8) ||| r.l
  | .SP => r.sp

/-- `Registers::set_register_pair` (registers.rs lines 98-118); the `as u8`
casts are the masks. -/
def Registers.set_register_pair (r : Registers) (reg : RegisterPair) (value : Nat) : Registers :=
  match reg with
  | .AF => { r with a := (value >>> 8) &&& 0xFF, f := value &&& 0xFF }
  | .BC => { r with b := (value >>> 8) &&& 0xFF, c := value &&& 0xFF }
  | .DE => { r with d := (value >>> 8) &&& 0xFF, e := value &&& 0xFF }
  | .HL => { r with h := (value >>> 8) &&& 0xFF, l := value &&& 0xFF }
  | .SP => { r with sp := value &&& 0xFFFF }

/-! ### Engine state — src/gameboy/mod.rs, mmu.rs, oam_dma.rs

The `Gameboy` record below carries the components exercised by the claims: the
CPU registers and flags, HRAM, WRAM, OAM, VRAM, the 128-byte io array, the
timer, the PPU state machine and the OAM DMA controller.  Memories are
modelled as total indexing functions (`hram i` is `cpu.hram[i]`, `ioRegs i` is
`io[i]` for `i < 0x80`, and so on).  The cartridge is modelled by its ROM
read function `cartRom` and RAM read function `cartRam`; the claims checked
against this state never write into cartridge space, so MBC register writes
and cartridge-RAM writes are modelled as no-ops, and `joyp` is the byte the
joypad returns for reads of 0xFF00. -/

/-- `struct OamDmaState` (oam_dma.rs lines 18-35). -/
structure OamDmaState where
  active : Bool
  start_address : Nat
  current_offset : Nat
  current_cycle : Nat
deriving DecidableEq

/-- `OamDmaState::new` (oam_dma.rs lines 38-45). -/
def OamDmaState.new : OamDmaState :=
  { active := false, start_address := 0, current_offset := 0, current_cycle := 0 }

/-- Engine state (fields of `struct Gameboy` in gameboy/mod.rs together with
the CPU flags of `struct CPU` in cpu/mod.rs). -/
structure Gameboy where
  regs : Registers
  ime : Bool
  next_ime_state : Bool
  halt : Bool
  ier : Nat
  hram : Nat → Nat
  wram : Nat → Nat
  oam : Nat → Nat
  vram : Nat → Nat
  ioRegs : Nat → Nat
  cartRom : Nat → Nat
  cartRam : Nat → Nat
  joyp : Nat
  timer : Timer
  ppu : DmgPpu
  dma : OamDmaState

/-- `DmgPpu::read_byte_vram` (dmg_ppu.rs lines 447-462): 0xFF during mode 3. -/
def Gameboy.ppu_read_byte_vram (g : Gameboy) (address : Nat) : Nat :=
  if g.ioRegs 0x41 &&& 3 = 3 then 0xFF else g.vram (address - 0x8000)

/-- `DmgPpu::write_byte_vram` (dmg_ppu.rs lines 464-475): dropped during mode 3. -/
def Gameboy.ppu_write_byte_vram (g : Gameboy) (address value : Nat) : Gameboy :=
  if g.ioRegs 0x41 &&& 3 ≠ 3 then
    { g with vram := fun i => if i = address - 0x8000 then value else g.vram i }
  else g

/-- `DmgPpu::read_byte_oam` (dmg_ppu.rs lines 478-492): 0xFF during modes 2 and 3. -/
def Gameboy.ppu_read_byte_oam (g : Gameboy) (address : Nat) : Nat :=
  if g.ioRegs 0x41 &&& 3 > 1 then 0xFF else g.oam (address - 0xFE00)

/-- `DmgPpu::write_byte_oam` (dmg_ppu.rs lines 494-504): dropped during modes 2 and 3. -/
def Gameboy.ppu_write_byte_oam (g : Gameboy) (address value : Nat) : Gameboy :=
  if g.ioRegs 0x41 &&& 3 < 2 then
    { g with oam := fun i => if i = address - 0xFE00 then value else g.oam i }
  else g

/-- `Mmu::read_byte` (mmu.rs lines 96-112): the ungated bus read used by the
OAM DMA engine and the debugger.  The match arms are in source order; the
0xFEA0-0xFEFF hole falls through to the final 0xFF arm.  (For echo addresses
above 0xF000 the source would overflow its 0x1000-byte `banked_wram` slice;
no claim reads that range through this path.) -/
def Gameboy.read_byte (g : Gameboy) (address : Nat) : Nat :=
  if address ≤ 0x7FFF then g.cartRom address
  else if address ≤ 0x9FFF then g.vram (address - 0x8000)
  else if address ≤ 0xBFFF then g.cartRam (address - 0xA000)
  else if address ≤ 0xCFFF then g.wram (address - 0xC000)
  else if address ≤ 0xDFFF then g.wram (0x1000 + (address - 0xD000))
  else if address ≤ 0xF000 then g.wram (0x1000 + (address - 0xE000))
  else if address ≤ 0xFDFF then g.wram (0x1000 + (address - 0xD000))
  else if address ≤ 0xFE9F then g.oam (address - 0xFE00)
  else if address = 0xFF00 then g.joyp
  else if address ≤ 0xFF7F ∧ 0xFF01 ≤ address then g.ioRegs (address - 0xFF00)
  else if address ≤ 0xFFFE ∧ 0xFF80 ≤ address then g.hram (address - 0xFF80)
  else if address = 0xFFFF then g.ier
  else 0xFF

/-- `Mmu::write_byte` (mmu.rs lines 114-130): the ungated bus write used by
the OAM DMA engine and the debugger.  Writes into cartridge space (MBC
registers and cartridge RAM) and to the joypad register are outside the
modelled state and are no-ops here; no claim below exercises them on this
path. -/
def Gameboy.write_byte (g : Gameboy) (address value : Nat) : Gameboy :=
  if address ≤ 0x7FFF then g
  else if address ≤ 0x9FFF then
    { g with vram := fun i => if i = address - 0x8000 then value else g.vram i }
  else if address ≤ 0xBFFF then g
  else if address ≤ 0xCFFF then
    { g with wram := fun i => if i = address - 0xC000 then value else g.wram i }
  else if address ≤ 0xDFFF then
    { g with wram := fun i => if i = 0x1000 + (address - 0xD000) then value else g.wram i }
  else if address ≤ 0xF000 then
    { g with wram := fun i => if i = 0x1000 + (address - 0xE000) then value else g.wram i }
  else if address ≤ 0xFDFF then
    { g with wram := fun i => if i = 0x1000 + (address - 0xD000) then value else g.wram i }
  else if address ≤ 0xFE9F then
    { g with oam := fun i => if i = address - 0xFE00 then value else g.oam i }
  else if address = 0xFF00 then g
  else if address ≤ 0xFF7F ∧ 0xFF01 ≤ address then
    { g with ioRegs := fun i => if i = address - 0xFF00 then value else g.ioRegs i }
  else if address ≤ 0xFFFE ∧ 0xFF80 ≤ address then
    { g with hram := fun i => if i = address - 0xFF80 then value else g.hram i }
  else if address = 0xFFFF then { g with ier := value }
  else g

/-- `Gameboy::start_oam_dma` as the `OamDmaController` trait implements it
(oam_dma.rs lines 106-111). -/
def Gameboy.start_oam_dma (g : Gameboy) (addr_high : Nat) : Gameboy :=
  { g with dma := { active := true, current_cycle := 0, current_offset := 0
                  , start_address := addr_high <<< 8 } }

/-- `MmuHelpers::read_byte_wram` (mmu.rs lines 13-20): the CPU-side WRAM read
with `selected_wram_bank = 1` (note the source maps 0xD000-0xDFFF to offset
`(address - 0xC000) + 0x1000`, i.e. wram\[0x2000..0x2FFF\]). -/
def Gameboy.read_byte_wram_cpu (g : Gameboy) (address : Nat) : Nat :=
  if address ≤ 0xCFFF then g.wram (address - 0xC000)
  else g.wram ((address - 0xC000) + 0x1000)

/-- `MmuHelpers::write_byte_wram` (mmu.rs lines 22-32): dropped entirely while
an OAM DMA is active. -/
def Gameboy.write_byte_wram_cpu (g : Gameboy) (address value : Nat) : Gameboy :=
  if g.dma.active then g
  else if address ≤ 0xCFFF then
    { g with wram := fun i => if i = address - 0xC000 then value else g.wram i }
  else
    { g with wram := fun i => if i = (address - 0xC000) + 0x1000 then value else g.wram i }

/-- `MmuHelpers::read_byte_io` (mmu.rs lines 34-40). -/
def Gameboy.read_byte_io (g : Gameboy) (address : Nat) : Nat :=
  if address = 0xFF00 then g.joyp else g.ioRegs (address - 0xFF00)

/-- `MmuHelpers::write_byte_io` (mmu.rs lines 43-51): 0xFF00 goes to the
joypad (not modelled — no claim writes it), 0xFF04 resets DIV (the
`Timer::write_io` handler for `Div`), 0xFF46 starts an OAM DMA, everything
else is stored into the io array. -/
def Gameboy.write_byte_io (g : Gameboy) (address value : Nat) : Gameboy :=
  if address = 0xFF00 then g
  else if address = 0xFF04 then { g with timer := g.timer.write_div }
  else if address = 0xFF46 then g.start_oam_dma value
  else { g with ioRegs := fun i => if i = address - 0xFF00 then value else g.ioRegs i }

/-- `Mmu::read_byte_cpu` (mmu.rs lines 136-153): while an OAM DMA is active
the CPU reads 0xFF everywhere below HRAM; otherwise the read dispatches with
the PPU gating VRAM and OAM accesses. -/
def Gameboy.read_byte_cpu (g : Gameboy) (address : Nat) : Nat :=
  if g.dma.active ∧ address < 0xFF80 then 0xFF
  else if address ≤ 0x7FFF then g.cartRom address
  else if address ≤ 0x9FFF then g.ppu_read_byte_vram address
  else if address ≤ 0xBFFF then g.cartRam (address - 0xA000)
  else if address ≤ 0xDFFF then g.read_byte_wram_cpu address
  else if address ≤ 0xFDFF then g.read_byte_wram_cpu (address - 0x2000)
  else if address ≤ 0xFE9F then g.ppu_read_byte_oam address
  else if address ≤ 0xFF7F ∧ 0xFF00 ≤ address then g.read_byte_io address
  else if address ≤ 0xFFFE ∧ 0xFF80 ≤ address then g.hram (address - 0xFF80)
  else if address = 0xFFFF then g.ier
  else 0xFF

/-- `Mmu::write_byte_cpu` (mmu.rs lines 155-172): while an OAM DMA is active
the CPU writes below HRAM are dropped.  Writes into cartridge space set MBC
registers in the source and are no-ops on this modelled state (no claim
below performs them). -/
def Gameboy.write_byte_cpu (g : Gameboy) (address value : Nat) : Gameboy :=
  if g.dma.active ∧ address < 0xFF80 then g
  else if address ≤ 0x7FFF then g
  else if address ≤ 0x9FFF then g.ppu_write_byte_vram address value
  else if address ≤ 0xBFFF then g
  else if address ≤ 0xDFFF then g.write_byte_wram_cpu address value
  else if address ≤ 0xFDFF then g.write_byte_wram_cpu (address - 0x2000) value
  else if address ≤ 0xFE9F then g.ppu_write_byte_oam address value
  else if address ≤ 0xFF7F ∧ 0xFF00 ≤ address then g.write_byte_io address value
  else if address ≤ 0xFFFE ∧ 0xFF80 ≤ address then
    { g with hram := fun i => if i = address - 0xFF80 then value else g.hram i }
  else if address = 0xFFFF then { g with ier := value }
  else g

/-- `Gameboy::request_interrupt` (gameboy/mod.rs lines 233-247): sets the
bit of the interrupt in IF (io\[0x0F\]) and wakes the CPU. -/
def Gameboy.request_interrupt (g : Gameboy) (mask : Nat) : Gameboy :=
  { g with ioRegs := fun i => if i = 0x0F then g.ioRegs 0x0F ||| mask else g.ioRegs i
         , halt := false }

/-- `OamDmaController::service_oam_dma_transfer` (oam_dma.rs lines 113-133):
called once per tick; makes no progress at all while the CPU halt flag is
set.  From cycle 4 to cycle 644, once every 4 cycles, one byte is copied from
`start_address + offset` to `0xFE00 + offset` over the ungated bus; at cycle
648 the transfer deactivates. -/
def Gameboy.service_oam_dma_transfer (g : Gameboy) : Gameboy :=
  if ¬g.halt ∧ g.dma.active then
    let g1 :=
      if 4 ≤ g.dma.current_cycle ∧ g.dma.current_cycle ≤ 644 ∧ g.dma.current_cycle % 4 = 0 then
        let src := g.dma.start_address + g.dma.current_offset
        let byte := g.read_byte src
        let dest := 0xFE00 + g.dma.current_offset
        let g2 := g.write_byte dest byte
        { g2 with dma := { g2.dma with current_offset := g2.dma.current_offset + 1 } }
      else g
    let g3 : Gameboy := { g1 with dma := { g1.dma with current_cycle := g1.dma.current_cycle + 1 } }
    if g3.dma.current_cycle ≥ 648 then { g3 with dma := { g3.dma with active := false } }
    else g3
  else g

/-- One machine-cycle peripheral tick, `Gameboy::emulate_hardware`
(gameboy/mod.rs lines 138-159) with the tick-driven OAM DMA engine of
oam_dma.rs servicing the transfer: DMA, then the timer (forwarding its
interrupt request into IF), then the PPU (forwarding VBlank/LCDStat requests
into IF and clearing the PPU latches).  The APU tick touches no modelled
state. -/
def Gameboy.emulate_hardware (g : Gameboy) : Gameboy :=
  let g1 := g.service_oam_dma_transfer
  let tr := g1.timer.emulate_hardware
  let g2 : Gameboy := { g1 with timer := tr.1 }
  let g3 := if tr.2 then g2.request_interrupt 4 else g2
  let pr := g3.ppu.emulate_hardware
    { lcdc := g3.ioRegs 0x40, stat := g3.ioRegs 0x41, lyc := g3.ioRegs 0x45, ly := g3.ioRegs 0x44 }
  let g4 : Gameboy :=
    { g3 with ppu := pr.1
            , ioRegs := fun i =>
                if i = 0x41 then pr.2.stat else if i = 0x44 then pr.2.ly else g3.ioRegs i }
  let g5 := if g4.ppu.vblank_requested then g4.request_interrupt 1 else g4
  let g6 := if g5.ppu.lcdstat_requested then g5.request_interrupt 2 else g5
  { g6 with ppu := { g6.ppu with vblank_requested := false, lcdstat_requested := false } }

/-! ### CPU instructions — src/gameboy/instructions.rs -/

/-- `Gameboy::push` (instructions.rs lines 208-226): internal delay tick, then
the high byte to sp-1, the low byte to sp-2 (each followed by a tick), then
sp := sp - 2. -/
def Gameboy.push (g : Gameboy) (value : Nat) : Gameboy :=
  let g1 := g.emulate_hardware
  let sp := g1.regs.sp
  let g2 := g1.write_byte_cpu (sp - 1) ((value >>> 8) &&& 0xFF)
  let g3 := g2.emulate_hardware
  let g4 := g3.write_byte_cpu (sp - 2) (value &&& 0xFF)
  let g5 := g4.emulate_hardware
  { g5 with regs := { g5.regs with sp := g5.regs.sp - 2 } }

/-- `Gameboy::pop` (instructions.rs lines 230-239): the low byte from sp, the
high byte from sp+1 (each followed by a tick), then sp := sp + 2.  Returns the
popped word with the new state. -/
def Gameboy.pop (g : Gameboy) : Gameboy × Nat :=
  let low := g.read_byte_cpu g.regs.sp
  let g1 := g.emulate_hardware
  let high := g1.read_byte_cpu (g1.regs.sp + 1)
  let g2 := g1.emulate_hardware
  ({ g2 with regs := { g2.regs with sp := g2.regs.sp + 2 } }, (high <<< 8) ||| low)

/-- `Gameboy::push_r16` (instructions.rs lines 429-432). -/
def Gameboy.push_r16 (g : Gameboy) (reg : RegisterPair) : Gameboy :=
  g.push (g.regs.get_register_pair reg)

/-- `Gameboy::pop_af` (instructions.rs lines 1240-1244): the popped word is
masked with 0xFFF0 before being stored into AF, so the low nibble of F reads
zero. -/
def Gameboy.pop_af (g : Gameboy) : Gameboy :=
  let p := g.pop
  { p.1 with regs := p.1.regs.set_register_pair .AF (p.2 &&& 0xFFF0) }

/-- `Gameboy::interrupt_service_routine` (gameboy/mod.rs lines 259-332): runs
before each instruction; if IME is set and a requested interrupt is enabled,
the lowest-numbered one is selected and cleared from IF, the shadow IME is
cleared, two delay ticks pass, PC is pushed (high then low, a tick after each
byte), SP drops by 2 and PC jumps to the vector with one further tick.  Note
the routine clears only `next_ime_state`, not `ime` itself. -/
def Gameboy.interrupt_service_routine (g : Gameboy) : Gameboy :=
  if g.ime then
    let interrupts := g.ioRegs 0x0F &&& g.ier
    let sel : Option (Nat × Nat) :=
      if interrupts &&& 1 = 1 then some (1, 0x40)
      else if interrupts &&& 2 = 2 then some (2, 0x48)
      else if interrupts &&& 4 = 4 then some (4, 0x50)
      else if interrupts &&& 8 = 8 then some (8, 0x58)
      else if interrupts &&& 16 = 16 then some (16, 0x60)
      else none
    match sel with
    | none => g
    | some ms =>
      let g1 : Gameboy :=
        { g with ioRegs := fun i =>
            if i = 0x0F then g.ioRegs 0x0F &&& (0xFF ^^^ ms.1) else g.ioRegs i }
      let g2 : Gameboy := { g1 with next_ime_state := false }
      let g3 := (g2.emulate_hardware).emulate_hardware
      let g4 : Gameboy := { g3 with halt := false }
      let old_pc := g4.regs.pc
      let sp := g4.regs.sp
      let g5 := g4.write_byte (sp - 1) ((old_pc >>> 8) &&& 0xFF)
      let g6 := g5.emulate_hardware
      let g7 := g6.write_byte (sp - 2) (old_pc &&& 0xFF)
      let g8 := g7.emulate_hardware
      let g9 : Gameboy := { g8 with regs := { g8.regs with sp := g8.regs.sp - 2, pc := ms.2 } }
      g9.emulate_hardware
  else g

/-- `Gameboy::execute` (instructions.rs lines 30-46) restricted to the opcodes
the claims exercise: when halted, a single tick; otherwise IME is loaded from
the shadow `next_ime_state`, the opcode is fetched (one tick) and dispatched.
NOP (0x00) does nothing further and DI (0xF3, instructions.rs lines
1259-1262) only clears the shadow `next_ime_state`; other opcodes are not
dispatched by this model and fall through unchanged after the fetch. -/
def Gameboy.execute (g : Gameboy) : Gameboy :=
  if g.halt then g.emulate_hardware
  else
    let g1 : Gameboy := { g with ime := g.next_ime_state }
    let opcode := g1.read_byte_cpu g1.regs.pc
    let g2 : Gameboy := { g1 with regs := { g1.regs with pc := g1.regs.pc + 1 } }
    let g3 := g2.emulate_hardware
    if opcode = 0x00 then g3
    else if opcode = 0xF3 then { g3 with next_ime_state := false }
    else g3

/-! ### Whole-cartridge construction — src/gameboy/cartridge/mod.rs -/

/-- Controller state held by `VirtualCartridge` (the `Box<MemoryBankController>`
of cartridge/mod.rs, one variant per implemented controller). -/
inductive MbcBox where
  | nombc
  | mbc1 (s : MBC1)
  | mbc3 (s : MBC3)
deriving DecidableEq

/-- `struct VirtualCartridge` (cartridge/mod.rs lines 162-167). -/
structure VirtualCartridge where
  rom : List Nat
  ram : List Nat
  cart_info : CartInfo
  mbc : MbcBox
deriving DecidableEq

/-- `VirtualCartridge::new` (cartridge/mod.rs lines 170-203); `none` models a
panic inside header parsing.  When no RAM image is supplied the source
allocates `Vec::with_capacity(ram_size)` — a vector of length zero.  `now`
is the wall clock captured by `RTC::new` when an MBC3 cartridge has one. -/
def VirtualCartridge.new (rom : List Nat) (ram : Option (List Nat)) (now : Int) :
    Option (Except String VirtualCartridge) :=
  match CartInfo.new rom with
  | none => none
  | some (.error e) => some (.error e)
  | some (.ok cart_info) =>
    let ram := match ram with | some r => r | none => []
    match cart_info.mbc_type with
    | .NONE => some (.ok { rom := rom, ram := ram, cart_info := cart_info, mbc := .nombc })
    | .MBC1 => some (.ok { rom := rom, ram := ram, cart_info := cart_info, mbc := .mbc1 MBC1.new })
    | .MBC3 => some (.ok { rom := rom, ram := ram, cart_info := cart_info
                         , mbc := .mbc3 (MBC3.new cart_info.rtc now) })
    | _ => some (.error "Unimplemented MBC")

/-! ### Concrete states used by the claims -/

/-- Two-bank ROM image: every byte of bank 0 is 0x11, every byte of bank 1 is
0x22. -/
def romTwoBanks : Nat → Nat :=
  fun a => if a < 0x4000 then 0x11 else if a < 0x8000 then 0x22 else 0

/-- RTC whose anchor is unix second 1000 with all counters at zero and the
halt bit clear. -/
def rtcC8 : RTC :=
  { last := 1000, duration := Duration.new, latched := none, halt := false, day_carry := false }

/-- Timer state in the middle of a TIMA overflow-reload window (delay 3) with
the timer enabled on clock-select 1 (DIV bit 3) and DIV about to drop that
bit: 0x0F + 1 = 0x10. -/
def timerPendingReload : Timer :=
  { model := .DMG, div := 0xF, tima := 7, tma := 0, tac := 5, tima_overflow_delay := some 3 }

/-- Timer state with no reload pending, used to witness the amended timer
theorem at a concrete input. -/
def timerIdle : Timer :=
  { model := .DMG, div := 0xF, tima := 7, tma := 0, tac := 5, tima_overflow_delay := none }

/-- Baseline engine state: post-bootrom SP, PC at 0x100, all memories zero
(cartridge RAM reads open-bus 0xFF, joypad reads 0xFF), timer and PPU at
power-on, no DMA active. -/
def baseGB : Gameboy :=
  { regs := { a := 0, f := 0, b := 0, c := 0, d := 0, e := 0, h := 0, l := 0
            , sp := 0xFFFE, pc := 0x100 }
  , ime := false, next_ime_state := false, halt := false, ier := 0
  , hram := fun _ => 0, wram := fun _ => 0, oam := fun _ => 0, vram := fun _ => 0
  , ioRegs := fun _ => 0, cartRom := fun _ => 0, cartRam := fun _ => 0xFF, joyp := 0xFF
  , timer := Timer.new .DMG, ppu := DmgPpu.new, dma := OamDmaState.new }

/-- Engine state for the OAM DMA scenario: WRAM offsets 0x100..0x19F (bus
addresses 0xC100..0xC19F) hold the bytes 0..159. -/
def gbDmaScenario : Gameboy :=
  { baseGB with wram := fun i => if 0x100 ≤ i ∧ i < 0x1A0 then i - 0x100 else 0 }

/-- The DMA scenario just after the CPU writes 0xC1 to 0xFF46. -/
def gbDmaStarted : Gameboy :=
  gbDmaScenario.write_byte_cpu 0xFF46 0xC1

/-- The DMA scenario after the full 648-cycle transfer window. -/
def gbDmaDone : Gameboy :=
  Nat.iterate Gameboy.emulate_hardware 648 gbDmaStarted

/-- The DMA scenario after `n` ticks of the OAM DMA controller. -/
def dmaS (n : Nat) : Gameboy :=
  Nat.iterate Gameboy.service_oam_dma_transfer n gbDmaStarted

/-- Loop invariant of the DMA scenario after `n` controller ticks
(for `n ≤ 647`): the transfer is active with cycle counter `n`, `(n-1)/4`
bytes have been copied, and the OAM holds exactly the copied prefix. -/
def dmaInv (n : Nat) : Prop :=
  (dmaS n).halt = false
  ∧ (dmaS n).wram = gbDmaScenario.wram
  ∧ (dmaS n).dma.active = true
  ∧ (dmaS n).dma.start_address = 0xC100
  ∧ (dmaS n).dma.current_cycle = n
  ∧ (dmaS n).dma.current_offset = (n - 1) / 4
  ∧ ∀ i, (dmaS n).oam i = if i < (n - 1) / 4 ∧ i < 160 then i else 0

/-- Engine state for the PUSH BC / POP AF scenario: BC = 0x1234. -/
def gbPushPop : Gameboy :=
  { baseGB with regs := { baseGB.regs with b := 0x12, c := 0x34 } }

/-- Engine state after PUSH BC then POP AF from `gbPushPop`. -/
def gbAfterPopAf : Gameboy :=
  (gbPushPop.push_r16 .BC).pop_af

/-- Engine state for the DI scenario: IME on (shadow on), only the Timer
interrupt enabled in IE, DI at PC = 0x100, and the timer one tick away from
its overflow reload, so the Timer interrupt becomes pending during the DI
fetch cycle. -/
def gbDiScenario : Gameboy :=
  { baseGB with
      ime := true
    , next_ime_state := true
    , ier := 4
    , cartRom := fun a => if a = 0x100 then 0xF3 else 0
    , timer :=
      { model := .DMG, div := 0, tima := 0, tma := 0x42, tac := 0, tima_overflow_delay := some 0 } }

/-- The DI scenario at the instruction boundary before DI (the dispatcher
finds nothing pending). -/
def gbDiBoundary : Gameboy := gbDiScenario.interrupt_service_routine

/-- The DI scenario after the DI instruction has executed (the Timer
interrupt became pending during its fetch cycle). -/
def gbAfterDi : Gameboy := gbDiBoundary.execute

/-- The DI scenario at the next instruction boundary after DI. -/
def gbBoundaryAfterDi : Gameboy := gbAfterDi.interrupt_service_routine

/-- Halted engine state with an OAM DMA in flight, for the halt-suspends-DMA
claim. -/
def gbHaltedDma : Gameboy :=
  { baseGB with
      halt := true
    , dma := { active := true, start_address := 0xC100, current_offset := 5, current_cycle := 40 } }

/-- Engine state with the LCD enabled (LCDC = 0x91, STAT = 0x85), used to
reach a mid-frame PPU state before the LCD is switched off. -/
def gbLcdOn : Gameboy :=
  { baseGB with ioRegs := fun i => if i = 0x40 then 0x91 else if i = 0x41 then 0x85 else 0 }

/-- Mid-frame state with the LCD just disabled: 58 enabled ticks (the PPU is
then in OAMSearch on line 1), after which the CPU stores 0x11 into LCDC. -/
def gbLcdOff : Gameboy :=
  (Nat.iterate Gameboy.emulate_hardware 58 gbLcdOn).write_byte_cpu 0xFF40 0x11

/-! ## Theorems -/

/-! ### Bitwise bridging lemmas -/

theorem land_pow_eq_self_iff (n b : Nat) : n &&& 2 ^ b = 2 ^ b ↔ n.testBit b = true := by
  have hp := Nat.two_pow_pos b
  rw [Nat.and_two_pow]
  cases h : n.testBit b
  · simp
    omega
  · simp

theorem land_pow_eq_zero_iff (n b : Nat) : n &&& 2 ^ b = 0 ↔ n.testBit b = false := by
  have hp := Nat.two_pow_pos b
  rw [Nat.and_two_pow]
  cases h : n.testBit b
  · simp
  · simp

theorem land_pow_ne_zero_iff (n b : Nat) : n &&& 2 ^ b ≠ 0 ↔ n.testBit b = true := by
  have hp := Nat.two_pow_pos b
  rw [Nat.and_two_pow]
  cases h : n.testBit b
  · simp
  · simp

theorem land_four_eq_iff (n : Nat) : n &&& 4 = 4 ↔ n.testBit 2 = true := by
  have h := land_pow_eq_self_iff n 2
  norm_num at h
  exact h

theorem land_four_ne_zero_iff (n : Nat) : n &&& 4 ≠ 0 ↔ n.testBit 2 = true := by
  have h := land_pow_ne_zero_iff n 2
  norm_num at h
  exact h

theorem freq_eq_pow (tac : Nat) : FREQ (tac &&& 3) = 2 ^ selectedDivBit tac := by
  have h4 : tac &&& 3 ≤ 3 := Nat.and_le_right
  have h : tac &&& 3 = 0 ∨ tac &&& 3 = 1 ∨ tac &&& 3 = 2 ∨ tac &&& 3 = 3 := by omega
  rcases h with h | h | h | h <;> norm_num [FREQ, selectedDivBit, h]

/-! ### Timer falling-edge conditions -/

theorem tick_cond_iff (tac oldDiv newDiv : Nat) :
    (tac &&& 4 = 4 ∧ oldDiv &&& FREQ (tac &&& 3) = FREQ (tac &&& 3)
      ∧ newDiv &&& FREQ (tac &&& 3) = 0)
    ↔ (timerInput tac oldDiv = true ∧ timerInput tac newDiv = false) := by
  rw [freq_eq_pow, land_pow_eq_self_iff, land_pow_eq_zero_iff, land_four_eq_iff]
  cases h2 : tac.testBit 2 <;> cases ho : oldDiv.testBit (selectedDivBit tac) <;>
    cases hn : newDiv.testBit (selectedDivBit tac) <;> simp [timerInput, h2, ho, hn]

theorem div_write_cond_iff (tac div : Nat) :
    (tac &&& 4 = 4 ∧ div &&& FREQ (tac &&& 3) = FREQ (tac &&& 3))
    ↔ (timerInput tac div = true ∧ timerInput tac 0 = false) := by
  rw [freq_eq_pow, land_pow_eq_self_iff, land_four_eq_iff]
  cases h2 : tac.testBit 2 <;> cases ho : div.testBit (selectedDivBit tac) <;>
    simp [timerInput, h2, ho, Nat.zero_testBit]

theorem tac_write_cond_iff (tac v div : Nat) :
    ((tac &&& 4 ≠ 0 ∧ div &&& FREQ (tac &&& 3) ≠ 0)
      ∧ ¬(v &&& 4 ≠ 0 ∧ div &&& FREQ (v &&& 3) ≠ 0))
    ↔ (timerInput tac div = true ∧ timerInput v div = false) := by
  rw [freq_eq_pow tac, freq_eq_pow v, land_pow_ne_zero_iff, land_pow_ne_zero_iff,
    land_four_ne_zero_iff, land_four_ne_zero_iff]
  cases h2 : tac.testBit 2 <;> cases ho : div.testBit (selectedDivBit tac) <;>
    cases hv : v.testBit 2 <;> cases hw : div.testBit (selectedDivBit v) <;>
    simp [timerInput, h2, ho, hv, hw]

/-- Claim C3 (amended): TIMA is incremented by a timer T-tick iff the value of
(TAC enable AND selected DIV bit — bit 9, 3, 5 or 7 of the 16-bit DIV for
clock-select 0..3) falls from true to false across the tick, PROVIDED no TIMA
overflow-reload is pending; the same falling-edge rule governs the extra
increment on a write to DIV (unconditionally) and on a write to TAC on the
monochrome model. -/
theorem timer_falling_edge_amended (t : Timer) :
    (t.tima_overflow_delay = none →
      ((t.emulate_hardware.1.tima ≠ t.tima) ↔
        (timerInput t.tac t.div = true ∧ timerInput t.tac ((t.div + 1) % 65536) = false)))
    ∧ ((t.write_div.tima ≠ t.tima) ↔
        (timerInput t.tac t.div = true ∧ timerInput t.tac 0 = false))
    ∧ (∀ v, t.model = .DMG →
        (((t.write_tac v).tima ≠ t.tima) ↔
          (timerInput t.tac t.div = true ∧ timerInput v t.div = false))) := by
  refine ⟨fun hdelay => ?_, ?_, fun v hm => ?_⟩
  · rw [← tick_cond_iff]
    simp only [Timer.emulate_hardware, hdelay]
    split_ifs with hc hov
    · exact ⟨fun _ => hc, fun _ => by show (0 : Nat) ≠ t.tima; omega⟩
    · exact ⟨fun _ => hc, fun _ => by show t.tima + 1 ≠ t.tima; omega⟩
    · simp [hc]
  · rw [← div_write_cond_iff]
    simp only [Timer.write_div]
    split_ifs with hc hov
    · exact ⟨fun _ => hc, fun _ => by show (0 : Nat) ≠ t.tima; omega⟩
    · exact ⟨fun _ => hc, fun _ => by show t.tima + 1 ≠ t.tima; omega⟩
    · simp [hc]
  · rw [← tac_write_cond_iff]
    simp only [Timer.write_tac, hm, decide_eq_true_eq]
    split_ifs with hc hov
    · exact ⟨fun _ => hc, fun _ => by show (0 : Nat) ≠ t.tima; omega⟩
    · exact ⟨fun _ => hc, fun _ => by show t.tima + 1 ≠ t.tima; omega⟩
    · exact ⟨fun hl => absurd rfl hl, fun hr => absurd hr hc⟩

theorem timer_falling_edge_amended_witness :
    ((timerIdle.emulate_hardware.1.tima ≠ timerIdle.tima) ↔
      (timerInput timerIdle.tac timerIdle.div = true
        ∧ timerInput timerIdle.tac ((timerIdle.div + 1) % 65536) = false))
    ∧ (((timerIdle.write_tac 0).tima ≠ timerIdle.tima) ↔
        (timerInput timerIdle.tac timerIdle.div = true ∧ timerInput 0 timerIdle.div = false)) :=
  ⟨(timer_falling_edge_amended timerIdle).1 rfl,
   (timer_falling_edge_amended timerIdle).2.2 0 rfl⟩

/-- Claim C3 (counterexample to the claim as stated): with a TIMA
overflow-reload pending, a tick sees a falling edge of the timer input yet
does not increment TIMA. -/
theorem timer_falling_edge_counterexample :
    timerInput timerPendingReload.tac timerPendingReload.div = true
    ∧ timerInput timerPendingReload.tac ((timerPendingReload.div + 1) % 65536) = false
    ∧ timerPendingReload.emulate_hardware.1.tima = timerPendingReload.tima := by
  refine ⟨by decide, by decide, by decide⟩

/-! ### PPU while the LCD is disabled -/

/-- Claim C5 (amended): whenever bit 7 of LCDC is clear, ticking the PPU
changes none of its state and consumes no cycles — for EVERY PPU state; the
PPU holds mode HBlank with LY = 0 at power-on, but a reachable state with the
LCD disabled mid-frame may hold any mode and line. -/
theorem lcd_disabled_tick_noop :
    (∀ (p : DmgPpu) (r : PpuIo), r.lcdc &&& 128 = 0 → DmgPpu.emulate_hardware p r = (p, r))
    ∧ DmgPpu.new.mode = PpuMode.HBLANK ∧ DmgPpu.new.line = 0 := by
  refine ⟨fun p r h => ?_, rfl, rfl⟩
  simp [DmgPpu.emulate_hardware, h]

theorem lcd_disabled_tick_noop_witness :
    DmgPpu.emulate_hardware DmgPpu.new { lcdc := 0x11, stat := 0x85, lyc := 0, ly := 0 }
      = (DmgPpu.new, { lcdc := 0x11, stat := 0x85, lyc := 0, ly := 0 }) :=
  lcd_disabled_tick_noop.1 _ _ rfl

set_option maxRecDepth 20000 in
/-- Claim C5 (counterexample to the claim as stated): run the engine 58 ticks
from reset with the LCD on (the PPU is then in OAMSearch on line 1), then
store 0x11 into LCDC; in the resulting reachable state LCDC bit 7 is clear
but the PPU is neither in HBlank nor on line 0. -/
theorem lcd_disabled_invariant_counterexample :
    gbLcdOff.ioRegs 0x40 &&& 128 = 0
    ∧ gbLcdOff.ppu.mode = PpuMode.SEARCH_OAM ∧ gbLcdOff.ppu.line = 1
    ∧ ¬(gbLcdOff.ppu.mode = PpuMode.HBLANK ∧ gbLcdOff.ppu.line = 0) := by
  refine ⟨by decide, by decide, by decide, by decide⟩

/-! ### OAM DMA -/

/-- Claim C10: while the CPU halt flag is set, servicing the OAM DMA makes no
progress at all — the whole engine state (byte offset, cycle counter, active
flag, memories) is returned unchanged. -/
theorem halt_suspends_oam_dma (g : Gameboy) (h : g.halt = true) :
    g.service_oam_dma_transfer = g := by
  simp [Gameboy.service_oam_dma_transfer, h]

theorem halt_suspends_oam_dma_witness :
    gbHaltedDma.service_oam_dma_transfer = gbHaltedDma ∧ gbHaltedDma.dma.active = true :=
  ⟨halt_suspends_oam_dma gbHaltedDma rfl, rfl⟩

/-! ### OAM DMA transfer scenario -/

theorem write_byte_oam_arm (g : Gameboy) (k v : Nat) (hk : k ≤ 0x9F) :
    g.write_byte (0xFE00 + k) v = { g with oam := fun i => if i = k then v else g.oam i } := by
  unfold Gameboy.write_byte
  rw [if_neg (by omega)]
  rw [if_neg (by omega)]
  rw [if_neg (by omega)]
  rw [if_neg (by omega)]
  rw [if_neg (by omega)]
  rw [if_neg (by omega)]
  rw [if_neg (by omega)]
  rw [if_pos (by omega)]
  simp [Nat.add_sub_cancel_left]

theorem write_byte_fea0 (g : Gameboy) (v : Nat) : g.write_byte 0xFEA0 v = g := by
  unfold Gameboy.write_byte
  norm_num

theorem read_byte_dma_src (g : Gameboy) (hw : g.wram = gbDmaScenario.wram) (k : Nat)
    (hk : k ≤ 160) :
    g.read_byte (0xC100 + k) = if k < 160 then k else 0 := by
  unfold Gameboy.read_byte
  rw [if_neg (by omega), if_neg (by omega), if_neg (by omega), if_pos (by omega)]
  rw [hw]
  simp only [gbDmaScenario]
  split_ifs <;> omega

theorem service_nocopy (g : Gameboy) (hh : g.halt = false) (ha : g.dma.active = true)
    (hnc : ¬(4 ≤ g.dma.current_cycle ∧ g.dma.current_cycle ≤ 644
              ∧ g.dma.current_cycle % 4 = 0)) :
    g.service_oam_dma_transfer =
      if g.dma.current_cycle + 1 ≥ 648 then
        { g with dma := { g.dma with current_cycle := g.dma.current_cycle + 1, active := false } }
      else { g with dma := { g.dma with current_cycle := g.dma.current_cycle + 1 } } := by
  unfold Gameboy.service_oam_dma_transfer
  rw [if_pos ⟨by simp [hh], ha⟩, if_neg hnc]

theorem service_copy (g : Gameboy) (hh : g.halt = false) (ha : g.dma.active = true)
    (hcy : 4 ≤ g.dma.current_cycle ∧ g.dma.current_cycle ≤ 644 ∧ g.dma.current_cycle % 4 = 0)
    (hoff : g.dma.current_offset ≤ 0x9F) :
    g.service_oam_dma_transfer =
      { g with
          oam := fun i =>
            if i = g.dma.current_offset
            then g.read_byte (g.dma.start_address + g.dma.current_offset)
            else g.oam i
          dma := { g.dma with
                     current_offset := g.dma.current_offset + 1
                     current_cycle := g.dma.current_cycle + 1 } } := by
  unfold Gameboy.service_oam_dma_transfer
  rw [if_pos ⟨by simp [hh], ha⟩, if_pos hcy]
  dsimp only []
  rw [write_byte_oam_arm _ _ _ hoff]
  rw [if_neg (show ¬(g.dma.current_cycle + 1 ≥ 648) by omega)]

theorem service_copy_off160 (g : Gameboy) (hh : g.halt = false) (ha : g.dma.active = true)
    (hcy : 4 ≤ g.dma.current_cycle ∧ g.dma.current_cycle ≤ 644 ∧ g.dma.current_cycle % 4 = 0)
    (hoff : g.dma.current_offset = 160) :
    g.service_oam_dma_transfer =
      { g with
          dma := { g.dma with
                     current_offset := g.dma.current_offset + 1
                     current_cycle := g.dma.current_cycle + 1 } } := by
  unfold Gameboy.service_oam_dma_transfer
  rw [if_pos ⟨by simp [hh], ha⟩, if_pos hcy, hoff]
  dsimp only []
  rw [show (0xFE00 + 160 : Nat) = 0xFEA0 from rfl, write_byte_fea0]
  rw [if_neg (show ¬(g.dma.current_cycle + 1 ≥ 648) by omega)]
  rw [hoff]

theorem dmaInv_zero : dmaInv 0 := by
  unfold dmaInv
  refine ⟨rfl, rfl, rfl, rfl, rfl, rfl, fun i => ?_⟩
  rw [if_neg (by omega)]
  rfl

theorem dmaInv_step (n : Nat) (hn : n ≤ 646) (ih : dmaInv n) : dmaInv (n + 1) := by
  unfold dmaInv
  obtain ⟨hh, hw, ha, hs, hc, ho, hoam⟩ := ih
  have hstep : dmaS (n + 1) = (dmaS n).service_oam_dma_transfer :=
    Function.iterate_succ_apply' _ _ _
  by_cases hcy : 4 ≤ n ∧ n ≤ 644 ∧ n % 4 = 0
  · -- a byte is copied on this tick
    have hcy2 : 4 ≤ (dmaS n).dma.current_cycle ∧ (dmaS n).dma.current_cycle ≤ 644
        ∧ (dmaS n).dma.current_cycle % 4 = 0 := by rw [hc]; exact hcy
    by_cases h160 : (n - 1) / 4 = 160
    · -- the copy at offset 160 goes to the unmapped byte 0xFEA0 and is dropped
      have heq := service_copy_off160 (dmaS n) hh ha hcy2 (by rw [ho, h160])
      rw [hstep, heq]
      refine ⟨hh, hw, ?_, hs, ?_, ?_, fun i => ?_⟩
      · simp [ha]
      · simp [hc]
      · simp [ho]
        omega
      · simp only []
        rw [hoam i]
        have hoff2 : (n + 1 - 1) / 4 = 161 := by omega
        rw [h160, hoff2]
        split_ifs <;> first | rfl | omega
    · -- the copy lands in OAM at the current offset
      have hoff9f : (dmaS n).dma.current_offset ≤ 0x9F := by
        rw [ho]; omega
      have heq := service_copy (dmaS n) hh ha hcy2 hoff9f
      rw [hstep, heq]
      refine ⟨hh, hw, ?_, hs, ?_, ?_, fun i => ?_⟩
      · simp [ha]
      · simp [hc]
      · simp [ho]
        omega
      · have hbyte : (dmaS n).read_byte ((dmaS n).dma.start_address + (n - 1) / 4)
            = (n - 1) / 4 := by
          rw [hs, read_byte_dma_src (dmaS n) hw _ (by omega)]
          rw [if_pos (by omega)]
        simp only []
        rw [ho]
        have hoff2 : (n + 1 - 1) / 4 = (n - 1) / 4 + 1 := by omega
        rw [hoff2]
        by_cases hi : i = (n - 1) / 4
        · rw [if_pos hi, hbyte, hi, if_pos (by omega)]
        · rw [if_neg hi, hoam i]
          split_ifs <;> first | rfl | omega
  · -- no byte moves on this tick; only the cycle counter advances
    have hnc2 : ¬(4 ≤ (dmaS n).dma.current_cycle ∧ (dmaS n).dma.current_cycle ≤ 644
        ∧ (dmaS n).dma.current_cycle % 4 = 0) := by rw [hc]; exact hcy
    have heq := service_nocopy (dmaS n) hh ha hnc2
    rw [hc] at heq
    rw [if_neg (by omega)] at heq
    rw [hstep, heq]
    refine ⟨hh, hw, ha, hs, by simp [hc], ?_, fun i => ?_⟩
    · simp [ho]
      omega
    · simp only []
      rw [hoam i]
      have hoff2 : (n + 1 - 1) / 4 = (n - 1) / 4 := by omega
      rw [hoff2]

theorem dmaInv_holds : ∀ n, n ≤ 647 → dmaInv n := by
  intro n
  induction n with
  | zero => exact fun _ => dmaInv_zero
  | succ n ih => exact fun hn => dmaInv_step n (by omega) (ih (by omega))

/-- Claim C4: writing 0xC1 to 0xFF46 while WRAM at 0xC100..0xC19F holds
0..159 starts an OAM DMA; while the DMA is active every CPU-flavoured read
of 0xC100 returns 0xFF (the transfer stays active for its whole 648-tick
window), and after the transfer completes the 160 OAM bytes equal 0..159. -/
theorem oam_dma_blocks_and_completes :
    (∀ g : Gameboy, g.dma.active = true → g.read_byte_cpu 0xC100 = 0xFF)
    ∧ gbDmaStarted.dma.active = true
    ∧ (∀ n, n ≤ 647 → (dmaS n).dma.active = true)
    ∧ (dmaS 648).dma.active = false
    ∧ (∀ i, i < 160 → (dmaS 648).oam i = i) := by
  have h647 := dmaInv_holds 647 (by omega)
  obtain ⟨hh, hw, ha, hs, hc, ho, hoam⟩ := h647
  have hstep : dmaS 648 = (dmaS 647).service_oam_dma_transfer :=
    Function.iterate_succ_apply' _ _ _
  have hnc : ¬(4 ≤ (dmaS 647).dma.current_cycle ∧ (dmaS 647).dma.current_cycle ≤ 644
      ∧ (dmaS 647).dma.current_cycle % 4 = 0) := by rw [hc]; omega
  have heq := service_nocopy (dmaS 647) hh ha hnc
  rw [hc] at heq
  rw [if_pos (by omega)] at heq
  rw [hstep, heq]
  refine ⟨fun g hg => ?_, rfl, fun n hn => (dmaInv_holds n hn).2.2.1, rfl, fun i hi => ?_⟩
  · unfold Gameboy.read_byte_cpu
    rw [if_pos ⟨hg, by omega⟩]
  · simp only []
    rw [hoam i, if_pos ⟨by omega, hi⟩]

theorem oam_dma_blocks_and_completes_witness :
    gbDmaStarted.read_byte_cpu 0xC100 = 0xFF
    ∧ (dmaS 300).dma.active = true
    ∧ (dmaS 648).oam 5 = 5 :=
  ⟨oam_dma_blocks_and_completes.1 gbDmaStarted rfl,
   oam_dma_blocks_and_completes.2.2.1 300 (by norm_num),
   oam_dma_blocks_and_completes.2.2.2.2 5 (by norm_num)⟩

/-! ### Header parsing on short ROMs -/

set_option maxRecDepth 10000 in
/-- Claim C1: construction does NOT return a HeaderError on every short ROM —
`CartInfo::new` indexes `rom[0x147]`, `rom[0x148]` and `rom[0x149]` BEFORE its
`rom.len() < 0x150` check, so a ROM image shorter than 0x14A bytes makes
construction panic on an out-of-bounds slice index (modelled by `none`)
instead of returning the too-small HeaderError; the check only fires for
images of length 0x14A..0x14F. -/
theorem cart_short_rom_panics :
    CartInfo.new (List.replicate 0x147 0) = none
    ∧ VirtualCartridge.new (List.replicate 0x147 0) none 0 = none
    ∧ CartInfo.new (List.replicate 0x14C 0) =
        some (.error
          "Rom is too small to contain a rom header (rom is smaller than 0x150 bytes)") :=
  ⟨rfl, rfl, rfl⟩

/-! ### MBC ROM-bank select of zero -/

/-- Claim C7: writing 0 to the ROM-bank select range 0x2000-0x3FFF does NOT
map bank 1 — both `MBC1` and `MBC3` store the masked value 0 unchanged, so a
subsequent read from 0x4000 returns the bank-0 byte 0x11 of `romTwoBanks`
rather than the bank-1 byte 0x22 that mapping 0 to 1 would give (a fresh
controller, whose bank register is 1, does return 0x22). -/
theorem mbc_bank_zero_codebug :
    (MBC1.new.write_byte_rom 0x2000 0).rom_bank = 0
    ∧ (MBC1.new.write_byte_rom 0x2000 0).read_byte_rom romTwoBanks 0x8000 0x4000 = some 0x11
    ∧ ((MBC3.new false 0).write_byte_rom 0x2000 0 0).rom_bank = 0
    ∧ ((MBC3.new false 0).write_byte_rom 0x2000 0 0).read_byte_rom romTwoBanks 0x8000 0x4000
        = 0x11
    ∧ romTwoBanks 0x4000 = 0x22
    ∧ MBC1.new.read_byte_rom romTwoBanks 0x8000 0x4000 = some 0x22 :=
  ⟨rfl, rfl, rfl, rfl, rfl, rfl⟩

/-! ### RTC update -/

/-- Claim C8: `RTC::update` computes `delta = last - now` (anchor minus
current time), so when the wall clock has advanced (now = anchor + 5 s, halt
bit clear) the update changes nothing at all, and when the wall clock runs
BACKWARDS by 5 s the counters advance by 5 — the opposite of adding the
elapsed wall-clock seconds as the claim states. -/
theorem rtc_update_codebug :
    RTC.update rtcC8 1005 = rtcC8
    ∧ (RTC.update rtcC8 995).duration.seconds = 5
    ∧ rtcC8.halt = false ∧ rtcC8.duration.seconds = 0 :=
  ⟨rfl, rfl, rfl, rfl⟩

/-! ### PUSH BC / POP AF -/

/-- Claim C9: with BC = 0x1234, PUSH BC followed by POP AF leaves A = 0x12
and F = 0x30 — POP AF masks the popped word with 0xFFF0, discarding the low
nibble of F (SP returns to its initial 0xFFFE). -/
theorem pop_af_masks_flags :
    gbAfterPopAf.regs.a = 0x12
    ∧ gbAfterPopAf.regs.f = 0x30
    ∧ gbAfterPopAf.regs.sp = 0xFFFE :=
  ⟨rfl, rfl, rfl⟩

/-! ### DI and the next instruction boundary -/

/-- Claim C6: DI does NOT clear IME immediately — `di` only clears the shadow
`next_ime_state`, and `ime` itself is reloaded from the shadow only at the
start of the following instruction, after the dispatcher has already run.  In
the scenario a Timer interrupt becomes pending (and is enabled) during the DI
fetch cycle; at the very next instruction boundary the dispatcher still sees
`ime = true` and dispatches to vector 0x50, which the claim says must not
happen. -/
theorem di_delayed_codebug :
    gbAfterDi.next_ime_state = false
    ∧ gbAfterDi.ime = true
    ∧ gbAfterDi.regs.pc = 0x101
    ∧ gbAfterDi.ioRegs 0x0F &&& gbAfterDi.ier = 4
    ∧ gbBoundaryAfterDi.regs.pc = 0x50 :=
  ⟨rfl, rfl, rfl, rfl, rfl⟩

/-! ### PPU frame length

`core_sim` shows that with the LCD enabled one PPU call acts as `coreStep` on
the timing core; the chunk lemmas then advance the core 1000 machine cycles
at a time through the literal intermediate states declared above, so that no
single evaluation recurses too deeply. -/

theorem core_sim (p : DmgPpu) (r : PpuIo) (h : r.lcdc &&& 128 ≠ 0) :
    (DmgPpu.emulate_hardware p r).1.core = coreStep p.core
    ∧ (DmgPpu.emulate_hardware p r).2.lcdc = r.lcdc := by
  obtain ⟨mode, line, clock, fb, bb, vr, lr⟩ := p
  unfold DmgPpu.emulate_hardware coreStep
  rw [if_neg h]
  constructor
  · cases mode <;> dsimp only [DmgPpu.core] <;> split_ifs <;> rfl
  · rfl

theorem core_sim_iterate :
    ∀ (n : Nat) (p : DmgPpu) (r : PpuIo), r.lcdc &&& 128 ≠ 0 →
      (Nat.iterate ppuStep n (p, r)).1.core = Nat.iterate coreStep n p.core := by
  intro n
  induction n with
  | zero => intro p r h; rfl
  | succ n ih =>
    intro p r h
    rw [Function.iterate_succ_apply, Function.iterate_succ_apply]
    have hs1 : (ppuStep (p, r)).1.core = coreStep p.core := (core_sim p r h).1
    have hs2 : (ppuStep (p, r)).2.lcdc = r.lcdc := (core_sim p r h).2
    have hstep : ppuStep (p, r) = ((ppuStep (p, r)).1, (ppuStep (p, r)).2) := rfl
    rw [hstep, ih (ppuStep (p, r)).1 (ppuStep (p, r)).2 (by rw [hs2]; exact h), hs1]

theorem runNoSwapCore_add : ∀ (a b : Nat) (s t : PpuCore),
    runNoSwapCore a s = (true, t) → runNoSwapCore (a + b) s = runNoSwapCore b t := by
  intro a
  induction a with
  | zero =>
    intro b s t h
    simp only [runNoSwapCore] at h
    rw [Prod.mk.injEq] at h
    rw [Nat.zero_add, h.2]
  | succ n ih =>
    intro b s t h
    rw [Nat.succ_add]
    simp only [runNoSwapCore] at h ⊢
    by_cases hc : (coreStep s).front_buffer_index = s.front_buffer_index
    · rw [if_pos hc] at h ⊢
      exact ih b (coreStep s) t h
    · rw [if_neg hc] at h
      simp at h

set_option maxRecDepth 100000 in
theorem ppu_chunk_a1 : runNoSwapCore 1000 cA0 = (true, cA1) := by rfl

set_option maxRecDepth 100000 in
theorem ppu_chunk_a2 : runNoSwapCore 1000 cA1 = (true, cA2) := by rfl

set_option maxRecDepth 100000 in
theorem ppu_chunk_a3 : runNoSwapCore 1000 cA2 = (true, cA3) := by rfl

set_option maxRecDepth 100000 in
theorem ppu_chunk_a4 : runNoSwapCore 1000 cA3 = (true, cA4) := by rfl

set_option maxRecDepth 100000 in
theorem ppu_chunk_a5 : runNoSwapCore 1000 cA4 = (true, cA5) := by rfl

set_option maxRecDepth 100000 in
theorem ppu_chunk_a6 : runNoSwapCore 1000 cA5 = (true, cA6) := by rfl

set_option maxRecDepth 100000 in
theorem ppu_chunk_a7 : runNoSwapCore 1000 cA6 = (true, cA7) := by rfl

set_option maxRecDepth 100000 in
theorem ppu_chunk_a8 : runNoSwapCore 1000 cA7 = (true, cA8) := by rfl

set_option maxRecDepth 100000 in
theorem ppu_chunk_a9 : runNoSwapCore 1000 cA8 = (true, cA9) := by rfl

set_option maxRecDepth 100000 in
theorem ppu_chunk_a10 : runNoSwapCore 1000 cA9 = (true, cA10) := by rfl

set_option maxRecDepth 100000 in
theorem ppu_chunk_a11 : runNoSwapCore 1000 cA10 = (true, cA11) := by rfl

set_option maxRecDepth 100000 in
theorem ppu_chunk_a12 : runNoSwapCore 1000 cA11 = (true, cA12) := by rfl

set_option maxRecDepth 100000 in
theorem ppu_chunk_a13 : runNoSwapCore 1000 cA12 = (true, cA13) := by rfl

set_option maxRecDepth 100000 in
theorem ppu_chunk_a14 : runNoSwapCore 1000 cA13 = (true, cA14) := by rfl

set_option maxRecDepth 100000 in
theorem ppu_chunk_a15 : runNoSwapCore 1000 cA14 = (true, cA15) := by rfl

set_option maxRecDepth 100000 in
theorem ppu_chunk_a16 : runNoSwapCore 1000 cA15 = (true, cA16) := by rfl

set_option maxRecDepth 100000 in
theorem ppu_chunk_a17 : runNoSwapCore 788 cA16 = (true, cA17) := by rfl

theorem ppu_chunk_a_swap : runNoSwapCore 1 cA17 = (false, cB0) := by rfl

set_option maxRecDepth 100000 in
theorem ppu_chunk_b1 : runNoSwapCore 1000 cB0 = (true, cB1) := by rfl

set_option maxRecDepth 100000 in
theorem ppu_chunk_b2 : runNoSwapCore 1000 cB1 = (true, cB2) := by rfl

set_option maxRecDepth 100000 in
theorem ppu_chunk_b3 : runNoSwapCore 1000 cB2 = (true, cB3) := by rfl

set_option maxRecDepth 100000 in
theorem ppu_chunk_b4 : runNoSwapCore 1000 cB3 = (true, cB4) := by rfl

set_option maxRecDepth 100000 in
theorem ppu_chunk_b5 : runNoSwapCore 1000 cB4 = (true, cB5) := by rfl

set_option maxRecDepth 100000 in
theorem ppu_chunk_b6 : runNoSwapCore 1000 cB5 = (true, cB6) := by rfl

set_option maxRecDepth 100000 in
theorem ppu_chunk_b7 : runNoSwapCore 1000 cB6 = (true, cB7) := by rfl

set_option maxRecDepth 100000 in
theorem ppu_chunk_b8 : runNoSwapCore 1000 cB7 = (true, cB8) := by rfl

set_option maxRecDepth 100000 in
theorem ppu_chunk_b9 : runNoSwapCore 1000 cB8 = (true, cB9) := by rfl

set_option maxRecDepth 100000 in
theorem ppu_chunk_b10 : runNoSwapCore 1000 cB9 = (true, cB10) := by rfl

set_option maxRecDepth 100000 in
theorem ppu_chunk_b11 : runNoSwapCore 1000 cB10 = (true, cB11) := by rfl

set_option maxRecDepth 100000 in
theorem ppu_chunk_b12 : runNoSwapCore 1000 cB11 = (true, cB12) := by rfl

set_option maxRecDepth 100000 in
theorem ppu_chunk_b13 : runNoSwapCore 1000 cB12 = (true, cB13) := by rfl

set_option maxRecDepth 100000 in
theorem ppu_chunk_b14 : runNoSwapCore 1000 cB13 = (true, cB14) := by rfl

set_option maxRecDepth 100000 in
theorem ppu_chunk_b15 : runNoSwapCore 1000 cB14 = (true, cB15) := by rfl

set_option maxRecDepth 100000 in
theorem ppu_chunk_b16 : runNoSwapCore 1000 cB15 = (true, cB16) := by rfl

set_option maxRecDepth 100000 in
theorem ppu_chunk_b17 : runNoSwapCore 1000 cB16 = (true, cB17) := by rfl

set_option maxRecDepth 100000 in
theorem ppu_chunk_b18 : runNoSwapCore 882 cB17 = (true, cB18) := by rfl

theorem ppu_chunk_b_swap : runNoSwapCore 1 cB18 = (false, cC0) := by rfl

/-- Claim C2: with the LCD enabled the frame is NOT 70 224 T-cycles — on the
timing core (which the full PPU provably simulates step for step while LCDC
bit 7 is set), the first framebuffer swap after reset happens on machine
cycle 16789 and the second exactly 17883 machine cycles (71 532 T-cycles)
later: each visible scanline costs 468 T-cycles (OAMSearch 80, PixelTransfer
156, HBlank 232) and VBlank spans 9 line periods of 460 T-cycles, not 10 of
456. -/
theorem ppu_frame_length_codebug :
    (∀ (n : Nat) (p : DmgPpu) (r : PpuIo), r.lcdc &&& 128 ≠ 0 →
      (Nat.iterate ppuStep n (p, r)).1.core = Nat.iterate coreStep n p.core)
    ∧ ppuReset.2.lcdc &&& 128 ≠ 0
    ∧ DmgPpu.new.core = cA0
    ∧ runNoSwapCore 16788 cA0 = (true, cA17)
    ∧ runNoSwapCore 16789 cA0 = (false, cB0)
    ∧ runNoSwapCore 17882 cB0 = (true, cB18)
    ∧ runNoSwapCore 17883 cB0 = (false, cC0)
    ∧ 4 * 17883 = 71532
    ∧ (71532 : Nat) ≠ 70224 := by
  have hA : runNoSwapCore 16788 cA0 = (true, cA17) := by
    have e1 := runNoSwapCore_add 1000 15788 cA0 cA1 ppu_chunk_a1
    have e2 := runNoSwapCore_add 1000 14788 cA1 cA2 ppu_chunk_a2
    have e3 := runNoSwapCore_add 1000 13788 cA2 cA3 ppu_chunk_a3
    have e4 := runNoSwapCore_add 1000 12788 cA3 cA4 ppu_chunk_a4
    have e5 := runNoSwapCore_add 1000 11788 cA4 cA5 ppu_chunk_a5
    have e6 := runNoSwapCore_add 1000 10788 cA5 cA6 ppu_chunk_a6
    have e7 := runNoSwapCore_add 1000 9788 cA6 cA7 ppu_chunk_a7
    have e8 := runNoSwapCore_add 1000 8788 cA7 cA8 ppu_chunk_a8
    have e9 := runNoSwapCore_add 1000 7788 cA8 cA9 ppu_chunk_a9
    have e10 := runNoSwapCore_add 1000 6788 cA9 cA10 ppu_chunk_a10
    have e11 := runNoSwapCore_add 1000 5788 cA10 cA11 ppu_chunk_a11
    have e12 := runNoSwapCore_add 1000 4788 cA11 cA12 ppu_chunk_a12
    have e13 := runNoSwapCore_add 1000 3788 cA12 cA13 ppu_chunk_a13
    have e14 := runNoSwapCore_add 1000 2788 cA13 cA14 ppu_chunk_a14
    have e15 := runNoSwapCore_add 1000 1788 cA14 cA15 ppu_chunk_a15
    have e16 := runNoSwapCore_add 1000 788 cA15 cA16 ppu_chunk_a16
    norm_num at e1 e2 e3 e4 e5 e6 e7 e8 e9 e10 e11 e12 e13 e14 e15 e16
    rw [e1, e2, e3, e4, e5, e6, e7, e8, e9, e10, e11, e12, e13, e14, e15, e16]
    exact ppu_chunk_a17
  have hAswap : runNoSwapCore 16789 cA0 = (false, cB0) := by
    have e := runNoSwapCore_add 16788 1 cA0 cA17 hA
    norm_num at e
    rw [e]
    exact ppu_chunk_a_swap
  have hB : runNoSwapCore 17882 cB0 = (true, cB18) := by
    have f1 := runNoSwapCore_add 1000 16882 cB0 cB1 ppu_chunk_b1
    have f2 := runNoSwapCore_add 1000 15882 cB1 cB2 ppu_chunk_b2
    have f3 := runNoSwapCore_add 1000 14882 cB2 cB3 ppu_chunk_b3
    have f4 := runNoSwapCore_add 1000 13882 cB3 cB4 ppu_chunk_b4
    have f5 := runNoSwapCore_add 1000 12882 cB4 cB5 ppu_chunk_b5
    have f6 := runNoSwapCore_add 1000 11882 cB5 cB6 ppu_chunk_b6
    have f7 := runNoSwapCore_add 1000 10882 cB6 cB7 ppu_chunk_b7
    have f8 := runNoSwapCore_add 1000 9882 cB7 cB8 ppu_chunk_b8
    have f9 := runNoSwapCore_add 1000 8882 cB8 cB9 ppu_chunk_b9
    have f10 := runNoSwapCore_add 1000 7882 cB9 cB10 ppu_chunk_b10
    have f11 := runNoSwapCore_add 1000 6882 cB10 cB11 ppu_chunk_b11
    have f12 := runNoSwapCore_add 1000 5882 cB11 cB12 ppu_chunk_b12
    have f13 := runNoSwapCore_add 1000 4882 cB12 cB13 ppu_chunk_b13
    have f14 := runNoSwapCore_add 1000 3882 cB13 cB14 ppu_chunk_b14
    have f15 := runNoSwapCore_add 1000 2882 cB14 cB15 ppu_chunk_b15
    have f16 := runNoSwapCore_add 1000 1882 cB15 cB16 ppu_chunk_b16
    have f17 := runNoSwapCore_add 1000 882 cB16 cB17 ppu_chunk_b17
    norm_num at f1 f2 f3 f4 f5 f6 f7 f8 f9 f10 f11 f12 f13 f14 f15 f16 f17
    rw [f1, f2, f3, f4, f5, f6, f7, f8, f9, f10, f11, f12, f13, f14, f15, f16, f17]
    exact ppu_chunk_b18
  have hBswap : runNoSwapCore 17883 cB0 = (false, cC0) := by
    have f := runNoSwapCore_add 17882 1 cB0 cB18 hB
    norm_num at f
    rw [f]
    exact ppu_chunk_b_swap
  exact ⟨core_sim_iterate, by decide, rfl, hA, hAswap, hB, hBswap, rfl, by norm_num⟩

theorem ppu_frame_length_codebug_witness :
    (Nat.iterate ppuStep 1 (DmgPpu.new, ppuReset.2)).1.core = Nat.iterate coreStep 1 DmgPpu.new.core :=
  ppu_frame_length_codebug.1 1 DmgPpu.new ppuReset.2 (by decide)

end AGB
